import Mathlib

/-!
Shallow embedding of the block-reference resolution engine of `drawing_engine.py`
(repository `xmlto2d`), together with theorems settling the specification claims.

Python floats are modelled as real numbers; `math.cos` / `math.sin` / `math.pi`
(= `np.pi`) are modelled by `Real.cos` / `Real.sin` / `Real.pi`.
-/

namespace XmlTo2D

noncomputable section

open Real

/-- Dataclass `BlockReference` from `xml_parser.py`. -/
structure BlockReference where
  name : String
  position : ℝ × ℝ
  angle : ℝ
  scale : ℝ × ℝ
  layer : String
  color : String

/-- The drawing-command classes of `drawing_engine.py` as a tagged union.
Every command the engine constructs has `visible=True` (the constructor default),
so the `visible` flag is omitted. -/
inductive DrawingCommand where
  | line (x1 y1 x2 y2 : ℝ) (layer color : String)
  | text (x y : ℝ) (t font : String) (height angle : ℝ) (layer color : String)
  | circle (x y radius : ℝ) (layer color : String)
  | arc (x y radius startAngle endAngle : ℝ) (layer color : String)
  | symbol (x y : ℝ) (symbolType : String) (angle : ℝ) (scale : ℝ × ℝ) (layer color : String)
  | polyline (points : List (ℝ × ℝ)) (layer color : String)

/-- Dictionary `DrawingEngine.color_map` (insertion order preserved). -/
def colorMap : List (String × String) :=
  [("CPWALL", "blue"), ("CPDOOR", "orange"), ("CPWIN", "cyan"), ("CPWINDOW", "cyan"),
   ("WALL", "blue"), ("DOOR", "orange"), ("WINDOW", "cyan"),
   ("CPTEXT", "black"), ("FIN", "gray"), ("STAIR", "darkgreen"),
   ("0", "blue"), ("1", "blue"), ("2", "blue"), ("3", "blue"), ("4", "blue"),
   ("5", "blue"), ("6", "blue"), ("7", "blue"), ("8", "blue"), ("9", "blue"),
   ("10", "blue"), ("11", "blue"), ("12", "blue"),
   ("default", "black")]

/-- Method `DrawingEngine._get_color`.  The Python code first tries the layer name, then the
color code; its two remaining branches (digit codes up to 255, and everything else)
both return `color_map['default'] = 'black'`, so they are merged here. -/
def getColor (colorCode layerName : String) : String :=
  match colorMap.lookup layerName with
  | some c => c
  | none =>
    match colorMap.lookup colorCode with
    | some c => c
    | none => "black"

/-- List `DrawingEngine.default_visible_layers`. -/
def defaultVisibleLayers : List String :=
  ["CPWALL", "CPDOOR", "CPWIN", "CPWINDOW", "WALL", "DOOR", "WINDOW",
   "CPTEXT", "FIN", "STAIR",
   "0", "1", "2", "3", "4", "5", "6", "7", "8", "9", "10", "11", "12"]

/-- An entry of `door_block_defs` in `DrawingEngine._create_door_symbol`. -/
structure DoorDef where
  hingeOffset : ℝ × ℝ
  radius : Option ℝ

/-- Table `door_block_defs` from `DrawingEngine._create_door_symbol`. -/
def doorBlockDefs : List (String × DoorDef) :=
  [("A$C139426D3", ⟨(55.6668, 946.667), some 958.667⟩),
   ("CPDOOR5", ⟨(-0.5, 0), none⟩),
   ("CPDOOR1", ⟨(-0.5, 0), none⟩)]

/-- Effective scale: `block.scale if block.scale != (0, 0) else (1, 1)`. -/
def effScale (s : ℝ × ℝ) : ℝ × ℝ :=
  if s = (0, 0) then (1, 1) else s

/-- The `door_radius` computation of `_create_door_symbol` (lines 211-214):
a fixed catalog radius is multiplied by `scale_x`; otherwise `scale_x` itself is
used unless it is 0 or 1, in which case the default width 900 applies. -/
def doorRadius (defn : DoorDef) (scaleX : ℝ) : ℝ :=
  match defn.radius with
  | some r => r * scaleX
  | none => if scaleX = 0 ∨ scaleX = 1 then 900 else scaleX

/-- Every door branch of `_create_door_symbol` returns the same shape:
`Arc(cx, cy, r, rot, rot + pi/2)` followed by the panel
`Line(cx, cy, cx + r*cos(rot), cy + r*sin(rot))`. -/
def doorArcPanel (cx cy r rot : ℝ) (layer color : String) : List DrawingCommand :=
  [.arc cx cy r rot (rot + Real.pi / 2) layer color,
   .line cx cy (cx + r * Real.cos rot) (cy + r * Real.sin rot) layer color]

/-- A hand-tuned configuration forced by a positional override in
`_create_door_symbol`: the sign applied to each absolute hinge-offset coordinate,
the rotation offset added to the block angle for the arc start, and (for the
first, special entry only) whether `door_radius` is recomputed from the scale
even when the catalog supplies a fixed radius. -/
structure ForcedConfig where
  hingeSignX : ℝ
  hingeSignY : ℝ
  rotOff : ℝ
  scaleRadius : Bool

/-- An exception-table entry: an anchor coordinate (matched with tolerance 20 in
each axis) together with the forced configuration. -/
structure ExcEntry where
  anchor : ℝ × ℝ
  cfg : ForcedConfig

/-- The six coordinate-keyed positional overrides of `_create_door_symbol`, in
source order.  The first entry (the top-left door) is written in the source as
hinge signs `(-1, -1)` about the flipped angle `angle + pi` with arc start
`(angle + pi) - pi/2`; rotating by the extra `pi` negates both hinge components,
so it is recorded here in the equivalent normal form: hinge signs `(+1, +1)`
about `angle`, rotation offset `+pi/2`, with the radius recomputed from scale. -/
def exceptionTable : List ExcEntry :=
  [⟨(7603.07, 15067.4), ⟨1, 1, Real.pi / 2, true⟩⟩,
   ⟨(20266.9, 10414), ⟨-1, 1, -(Real.pi / 2), false⟩⟩,
   ⟨(18041.9, 10424.7), ⟨-1, 1, -(Real.pi / 2), false⟩⟩,
   ⟨(21188.5, 12020.8), ⟨-1, 1, -(Real.pi / 2), false⟩⟩,
   ⟨(4195.79, 23732.8), ⟨-1, 1, -(Real.pi / 2), false⟩⟩,
   ⟨(14765.2, 8208.18), ⟨-1, 1, -(Real.pi / 2), false⟩⟩]

/-- The forced configuration applied by the `block.position[1] > 19000` threshold
override (the topmost door). -/
def thresholdCfg : ForcedConfig := ⟨-1, 1, Real.pi / 2, false⟩

/-- Tolerance check of an exception-table entry: `abs(dx) < 20 and abs(dy) < 20`. -/
def excMatch (e : ExcEntry) (p : ℝ × ℝ) : Prop :=
  |p.1 - e.anchor.1| < 20 ∧ |p.2 - e.anchor.2| < 20

/-- The arc and panel a forced configuration produces for a catalog door block. -/
def forcedDoor (cfg : ForcedConfig) (defn : DoorDef) (b : BlockReference) :
    List DrawingCommand :=
  let s := effScale b.scale
  let r := if cfg.scaleRadius then (if s.1 = 0 ∨ s.1 = 1 then 900 else s.1)
           else doorRadius defn s.1
  let dx := cfg.hingeSignX * |defn.hingeOffset.1| * s.1
  let dy := cfg.hingeSignY * |defn.hingeOffset.2| * s.2
  let cx := b.position.1 + dx * Real.cos b.angle - dy * Real.sin b.angle
  let cy := b.position.2 + dx * Real.sin b.angle + dy * Real.cos b.angle
  doorArcPanel cx cy r (b.angle + cfg.rotOff) b.layer (getColor b.color b.layer)

/-- The 4 swing candidates of the disambiguation loop of `_create_door_symbol`,
in iteration order (`hinge_sign in [1, -1]` outer, `offset in [pi/2, -pi/2]`
inner).  Each candidate is the tuple `(dist, test_cx, test_cy, rot_angle)` the
loop scores: `dist` is the squared distance from the panel endpoint
`(test_cx + r*cos(rot), test_cy + r*sin(rot))` to the block's anchor position. -/
def doorCandidates (b : BlockReference) (hingeOffset : ℝ × ℝ) (scaleX scaleY r : ℝ) :
    List (ℝ × ℝ × ℝ × ℝ) :=
  ([1, -1] : List ℝ).flatMap fun hingeSign =>
    let dx := hingeSign * |hingeOffset.1| * scaleX
    let dy := hingeSign * |hingeOffset.2| * scaleY
    let cx := b.position.1 + dx * Real.cos b.angle - dy * Real.sin b.angle
    let cy := b.position.2 + dx * Real.sin b.angle + dy * Real.cos b.angle
    ([Real.pi / 2, -(Real.pi / 2)] : List ℝ).map fun off =>
      let rot := b.angle + off
      let x2 := cx + r * Real.cos rot
      let y2 := cy + r * Real.sin rot
      ((x2 - b.position.1) ^ 2 + (y2 - b.position.2) ^ 2, cx, cy, rot)

/-- One step of the running-best accumulator of the disambiguation loop:
`if best is None or dist > best[0]: best = (dist, ...)`. -/
def pickStep (best : Option (ℝ × ℝ × ℝ × ℝ)) (c : ℝ × ℝ × ℝ × ℝ) :
    Option (ℝ × ℝ × ℝ × ℝ) :=
  match best with
  | none => some c
  | some m => if c.1 > m.1 then some c else some m

/-- The disambiguation loop's selection, as a fold of `pickStep` over the
candidates in iteration order. -/
def pickBest (l : List (ℝ × ℝ × ℝ × ℝ)) : Option (ℝ × ℝ × ℝ × ℝ) :=
  l.foldl pickStep none

/-- Method `DrawingEngine._create_door_symbol`. -/
def createDoorSymbol (b : BlockReference) : List DrawingCommand :=
  match doorBlockDefs.lookup b.name with
  | some defn =>
    let hingeOffset := defn.hingeOffset
    let s := effScale b.scale
    let scaleX := s.1
    let scaleY := s.2
    let doorR := doorRadius defn scaleX
    let angle := b.angle
    let color := getColor b.color b.layer
    -- Special case: force the top left door at (7603.07, 15067.4) to swing inside.
    -- The source recomputes the radius from scale, flips both hinge coordinates to
    -- their negated absolute values, and works about `special_angle = angle + pi`.
    if |b.position.1 - 7603.07| < 20 ∧ |b.position.2 - 15067.4| < 20 then
      let doorR := if scaleX = 0 ∨ scaleX = 1 then 900 else scaleX
      let specialAngle := angle + Real.pi
      let dx := -|hingeOffset.1| * scaleX
      let dy := -|hingeOffset.2| * scaleY
      let cx := b.position.1 + dx * Real.cos specialAngle - dy * Real.sin specialAngle
      let cy := b.position.2 + dx * Real.sin specialAngle + dy * Real.cos specialAngle
      doorArcPanel cx cy doorR (specialAngle - Real.pi / 2) b.layer color
    -- Exception for the door at (20266.9, 10414)
    else if |b.position.1 - 20266.9| < 20 ∧ |b.position.2 - 10414| < 20 then
      let dx := -|hingeOffset.1| * scaleX
      let dy := |hingeOffset.2| * scaleY
      let cx := b.position.1 + dx * Real.cos angle - dy * Real.sin angle
      let cy := b.position.2 + dx * Real.sin angle + dy * Real.cos angle
      doorArcPanel cx cy doorR (angle - Real.pi / 2) b.layer color
    -- Exception for the door at (18041.9, 10424.7)
    else if |b.position.1 - 18041.9| < 20 ∧ |b.position.2 - 10424.7| < 20 then
      let dx := -|hingeOffset.1| * scaleX
      let dy := |hingeOffset.2| * scaleY
      let cx := b.position.1 + dx * Real.cos angle - dy * Real.sin angle
      let cy := b.position.2 + dx * Real.sin angle + dy * Real.cos angle
      doorArcPanel cx cy doorR (angle - Real.pi / 2) b.layer color
    -- Exception for the problematic door at (21188.5, 12020.8)
    else if |b.position.1 - 21188.5| < 20 ∧ |b.position.2 - 12020.8| < 20 then
      let dx := -|hingeOffset.1| * scaleX
      let dy := |hingeOffset.2| * scaleY
      let cx := b.position.1 + dx * Real.cos angle - dy * Real.sin angle
      let cy := b.position.2 + dx * Real.sin angle + dy * Real.cos angle
      doorArcPanel cx cy doorR (angle - Real.pi / 2) b.layer color
    -- Exception for the problematic CPDOOR2 at bottom left (4195.79, 23732.8)
    else if |b.position.1 - 4195.79| < 20 ∧ |b.position.2 - 23732.8| < 20 then
      let dx := -|hingeOffset.1| * scaleX
      let dy := |hingeOffset.2| * scaleY
      let cx := b.position.1 + dx * Real.cos angle - dy * Real.sin angle
      let cy := b.position.2 + dx * Real.sin angle + dy * Real.cos angle
      doorArcPanel cx cy doorR (angle - Real.pi / 2) b.layer color
    -- Exception for the problematic CPDOOR2 at (14765.2, 8208.18)
    else if |b.position.1 - 14765.2| < 20 ∧ |b.position.2 - 8208.18| < 20 then
      let dx := -|hingeOffset.1| * scaleX
      let dy := |hingeOffset.2| * scaleY
      let cx := b.position.1 + dx * Real.cos angle - dy * Real.sin angle
      let cy := b.position.2 + dx * Real.sin angle + dy * Real.cos angle
      doorArcPanel cx cy doorR (angle - Real.pi / 2) b.layer color
    -- Exception for the topmost door (highest y position)
    else if b.position.2 > 19000 then
      let dx := -|hingeOffset.1| * scaleX
      let dy := |hingeOffset.2| * scaleY
      let cx := b.position.1 + dx * Real.cos angle - dy * Real.sin angle
      let cy := b.position.2 + dx * Real.sin angle + dy * Real.cos angle
      doorArcPanel cx cy doorR (angle + Real.pi / 2) b.layer color
    -- Try both hinge offsets and both swing directions, pick the best.
    else
      match pickBest (doorCandidates b hingeOffset scaleX scaleY doorR) with
      | some best => doorArcPanel best.2.1 best.2.2.1 doorR best.2.2.2 b.layer color
      | none => []  -- unreachable: the candidate list is nonempty
  | none =>
    -- Fallback for door names without a `door_block_defs` entry (e.g. "DOOR").
    let doorWidth := if b.scale.1 = 0 then 900 else b.scale.1
    let color := getColor b.color b.layer
    doorArcPanel b.position.1 b.position.2 doorWidth b.angle b.layer color

/-- Method `DrawingEngine._create_window_symbol`.  The `for i in range(4)` outline loop
joining `pts[i]` to `pts[(i+1) % 4]` is unrolled over the four corner points. -/
def createWindowSymbol (b : BlockReference) : List DrawingCommand :=
  let w := if b.scale.1 = 0 then 1200 else |b.scale.1|
  let t : ℝ := 200
  let x := b.position.1
  let y := b.position.2
  let a := b.angle
  let color := "green"
  let rot := fun (p : ℝ × ℝ) =>
    ((x + p.1 * Real.cos a - p.2 * Real.sin a, y + p.1 * Real.sin a + p.2 * Real.cos a) : ℝ × ℝ)
  let p0 := rot (-(w / 2), -(t / 2))
  let p1 := rot (w / 2, -(t / 2))
  let p2 := rot (w / 2, t / 2)
  let p3 := rot (-(w / 2), t / 2)
  [DrawingCommand.symbol x y "WINDOW" a b.scale b.layer color,
   .line p0.1 p0.2 p1.1 p1.2 b.layer color,
   .line p1.1 p1.2 p2.1 p2.2 b.layer color,
   .line p2.1 p2.2 p3.1 p3.2 b.layer color,
   .line p3.1 p3.2 p0.1 p0.2 b.layer color]

/-- Method `DrawingEngine._create_stair_symbol`. -/
def createStairSymbol (b : BlockReference) : List DrawingCommand :=
  let x := b.position.1
  let y := b.position.2
  let s := effScale b.scale
  let scaleX := s.1
  let scaleY := s.2
  let a := b.angle
  let color := getColor b.color b.layer
  let line1Start := ((x + 0.5 * scaleX * Real.cos a, y + 0.5 * scaleX * Real.sin a) : ℝ × ℝ)
  let line1End :=
    ((x + 0.5 * scaleX * Real.cos a, y + 0.5 * scaleX * Real.sin a + 0.5 * scaleY) : ℝ × ℝ)
  let line2Start := ((x - 0.5 * scaleX * Real.cos a, y - 0.5 * scaleX * Real.sin a) : ℝ × ℝ)
  let line2End :=
    ((x - 0.5 * scaleX * Real.cos a, y - 0.5 * scaleX * Real.sin a + 0.5 * scaleY) : ℝ × ℝ)
  let arc1Center := ((x + 0.5 * scaleX * Real.cos a, y + 0.5 * scaleX * Real.sin a) : ℝ × ℝ)
  let arc2Center := ((x - 0.5 * scaleX * Real.cos a, y + 0.5 * scaleX * Real.sin a) : ℝ × ℝ)
  let radius := 0.5 * scaleX
  [DrawingCommand.line line1Start.1 line1Start.2 line1End.1 line1End.2 b.layer color,
   .line line2Start.1 line2Start.2 line2End.1 line2End.2 b.layer color,
   .arc arc1Center.1 arc1Center.2 radius (a + Real.pi / 2) (a + Real.pi) b.layer color,
   .arc arc2Center.1 arc2Center.2 radius a (a + Real.pi / 2) b.layer color]

/-- Method `DrawingEngine._create_default_symbol`. -/
def createDefaultSymbol (b : BlockReference) : DrawingCommand :=
  .symbol b.position.1 b.position.2 b.name b.angle b.scale b.layer
    (getColor b.color b.layer)

/-- Dictionary `DrawingEngine.symbols`: the name-to-resolver dispatch table. -/
def symbols : List (String × (BlockReference → List DrawingCommand)) :=
  [("CPDOOR1", createDoorSymbol), ("CPDOOR5", createDoorSymbol), ("DOOR", createDoorSymbol),
   ("CPWIN1", createWindowSymbol), ("CPWINDOW1", createWindowSymbol),
   ("CPWINDOW8", createWindowSymbol)]

/-- Method `DrawingEngine._convert_block_reference`. -/
def convertBlockReference (b : BlockReference) : List DrawingCommand :=
  match symbols.lookup b.name with
  | some f => f b
  | none =>
    if b.name = "CPDOOR2" then createStairSymbol b
    else if b.name = "계단-6" then createStairSymbol b
    else [createDefaultSymbol b]

/-- Dataclass `Layer` from `xml_parser.py`. -/
structure Layer where
  name : String
  color : String
  off : Bool

/-- The drawing-element variants produced by the parsing layer.  Polylines are
parsed as sequences of `Line` elements (`_parse_polyline`), so the engine's
`element_type == 'Polyline'` branch is unreachable and no separate variant exists. -/
inductive DrawingElement where
  | line (startPoint endPoint : ℝ × ℝ) (layer color : String)
  | text (t : String) (position : ℝ × ℝ) (font : String) (height angle : ℝ)
      (layer color : String)
  | circle (center : ℝ × ℝ) (radius : ℝ) (layer color : String)
  | arc (center : ℝ × ℝ) (radius startAngle endAngle : ℝ) (layer color : String)
  | blockRef (b : BlockReference)

/-- The `layer` attribute of a drawing element. -/
def elementLayer : DrawingElement → String
  | .line _ _ l _ => l
  | .text _ _ _ _ _ l _ => l
  | .circle _ _ l _ => l
  | .arc _ _ _ _ l _ => l
  | .blockRef b => b.layer

/-- The commands one drawing element contributes, per the dispatch in
`convert_to_drawing_commands` (`_convert_line` / `_convert_text` /
`_convert_circle` / `_convert_arc` / `_convert_block_reference`). -/
def elementCommands : DrawingElement → List DrawingCommand
  | .line s e l c => [.line s.1 s.2 e.1 e.2 l (getColor c l)]
  | .text t p f h a l c => [.text p.1 p.2 t f h a l (getColor c l)]
  | .circle ctr r l c => [.circle ctr.1 ctr.2 r l (getColor c l)]
  | .arc ctr r sa ea l c => [.arc ctr.1 ctr.2 r sa ea l (getColor c l)]
  | .blockRef b => convertBlockReference b

/-- Dataclass `Page` from `xml_parser.py`. -/
structure Page where
  title : String
  scale : String
  note : String
  layers : List Layer
  drawingElements : List DrawingElement

/-- Dataclass `SPSDocument` from `xml_parser.py`. -/
structure SPSDocument where
  version : String
  pages : List Page

/-- The per-name visibility decided in `convert_to_drawing_commands`: the
`layer_visibility` dict maps each declared layer name to `not layer.off` (the
last declaration of a duplicated name winning, as in a dict comprehension), then
names absent from `wall_layers` are forced to `False`; an element whose layer
has no dict entry defaults to visible (`layer_visibility.get(..., True)`). -/
def layerVisibility (page : Page) (wallLayers : List String) (name : String) : Bool :=
  match page.layers.reverse.find? (fun l => l.name == name) with
  | some l => !l.off && wallLayers.contains name
  | none => true

/-- The commands contributed by one page: visible elements contribute their
command lists, concatenated in element order. -/
def pageCommands (page : Page) (wallLayers : List String) : List DrawingCommand :=
  page.drawingElements.flatMap fun e =>
    if layerVisibility page wallLayers (elementLayer e) then elementCommands e else []

/-- Method `DrawingEngine.convert_to_drawing_commands`.  The `visible_layers` parameter
of the Python signature is never consulted by the filtering, which uses
`wall_layers or self.default_visible_layers`; Python's `or` also replaces an
empty caller-supplied list with the default, which `getAllowList` mirrors. -/
def getAllowList (wallLayers : Option (List String)) : List String :=
  match wallLayers with
  | some l => if l.isEmpty then defaultVisibleLayers else l
  | none => defaultVisibleLayers

/-- Conversion of a whole document: pages processed in order, commands appended. -/
def convertToDrawingCommands (doc : SPSDocument)
    (wallLayers : Option (List String)) : List DrawingCommand :=
  doc.pages.flatMap fun p => pageCommands p (getAllowList wallLayers)

/-- The color carried by a drawing command. -/
def commandColor : DrawingCommand → String
  | .line _ _ _ _ _ c => c
  | .text _ _ _ _ _ _ _ c => c
  | .circle _ _ _ _ c => c
  | .arc _ _ _ _ _ _ c => c
  | .symbol _ _ _ _ _ _ c => c
  | .polyline _ _ c => c

/-- Whether a command is a line command. -/
def isLineCommand : DrawingCommand → Prop
  | .line _ _ _ _ _ _ => True
  | _ => False

/-- The rectangle's inverse placement transform used to state the window claim:
translate by `-position`, then rotate by `-angle`. -/
def inverseTransform (b : BlockReference) (p : ℝ × ℝ) : ℝ × ℝ :=
  ((p.1 - b.position.1) * Real.cos b.angle + (p.2 - b.position.2) * Real.sin b.angle,
   -((p.1 - b.position.1) * Real.sin b.angle) + (p.2 - b.position.2) * Real.cos b.angle)

/-- The start point of a line command, if any. -/
def lineStart : DrawingCommand → Option (ℝ × ℝ)
  | .line x1 y1 _ _ _ _ => some (x1, y1)
  | _ => none

lemma pickStep_some (b c : ℝ × ℝ × ℝ × ℝ) :
    pickStep (some b) c = some (if c.1 > b.1 then c else b) := by
  simp only [pickStep]
  split <;> rfl

/-- The running-best fold started on `b` returns the first element of `b :: l`
attaining the maximum score: it is some `m` with every earlier element scoring
strictly below `m` and every element of `b :: l` scoring at most `m`. -/
lemma pickBest_go (l : List (ℝ × ℝ × ℝ × ℝ)) :
    ∀ b, ∃ l1 m l2,
      b :: l = l1 ++ m :: l2 ∧ (∀ x ∈ l1, x.1 < m.1) ∧ (∀ x ∈ b :: l, x.1 ≤ m.1) ∧
      l.foldl pickStep (some b) = some m := by
  induction l with
  | nil =>
    intro b
    exact ⟨[], b, [], rfl, by simp, by simp, rfl⟩
  | cons c t ih =>
    intro b
    have hstep : (c :: t).foldl pickStep (some b) =
        t.foldl pickStep (some (if c.1 > b.1 then c else b)) := by
      simp [List.foldl_cons, pickStep_some]
    by_cases hc : c.1 > b.1
    · obtain ⟨l1, m, l2, hdec, hlt, hle, hfold⟩ := ih c
      refine ⟨b :: l1, m, l2, ?_, ?_, ?_, ?_⟩
      · simpa [List.cons_append] using congrArg (b :: ·) hdec
      · intro x hx
        rcases List.mem_cons.1 hx with rfl | hx
        · exact lt_of_lt_of_le hc (hle c (List.mem_cons_self c t))
        · exact hlt x hx
      · intro x hx
        rcases List.mem_cons.1 hx with rfl | hx
        · exact le_of_lt (lt_of_lt_of_le hc (hle c (List.mem_cons_self c t)))
        · exact hle x hx
      · rw [hstep, if_pos hc]
        exact hfold
    · obtain ⟨l1, m, l2, hdec, hlt, hle, hfold⟩ := ih b
      have hcm : c.1 ≤ m.1 := le_trans (not_lt.1 hc) (hle b (List.mem_cons_self b t))
      cases l1 with
      | nil =>
        have hm : m = b := by
          have := hdec
          simp only [List.nil_append] at this
          exact (List.cons.injEq _ _ _ _ ▸ this).1.symm
        refine ⟨[], m, c :: t, by simp [hm], by simp, ?_, ?_⟩
        · intro x hx
          rcases List.mem_cons.1 hx with rfl | hx
          · exact hle x (List.mem_cons_self x t)
          · rcases List.mem_cons.1 hx with rfl | hx
            · exact hcm
            · exact hle x (List.mem_cons_of_mem _ hx)
        · rw [hstep, if_neg hc]
          exact hfold
      | cons a l1t =>
        have ha : a = b ∧ t = l1t ++ m :: l2 := by
          have := hdec
          simp only [List.cons_append] at this
          exact ⟨((List.cons.injEq _ _ _ _ ▸ this).1).symm,
                 (List.cons.injEq _ _ _ _ ▸ this).2⟩
        have hbm : b.1 < m.1 := by
          have := hlt a (List.mem_cons_self a l1t)
          rwa [ha.1] at this
        refine ⟨b :: c :: l1t, m, l2, ?_, ?_, ?_, ?_⟩
        · simp only [List.cons_append]
          rw [ha.2]
        · intro x hx
          rcases List.mem_cons.1 hx with rfl | hx
          · exact hbm
          · rcases List.mem_cons.1 hx with rfl | hx
            · exact lt_of_le_of_lt (not_lt.1 hc) hbm
            · exact hlt x (List.mem_cons_of_mem _ hx)
        · intro x hx
          rcases List.mem_cons.1 hx with rfl | hx
          · exact le_of_lt hbm
          · rcases List.mem_cons.1 hx with rfl | hx
            · exact hcm
            · exact hle x (List.mem_cons_of_mem _ hx)
        · rw [hstep, if_neg hc]
          exact hfold

/-- Selection lemma: `pickBest` on a nonempty candidate list returns the first maximal-score
candidate, where ties are broken in favor of the earlier candidate. -/
lemma pickBest_spec (c : ℝ × ℝ × ℝ × ℝ) (l : List (ℝ × ℝ × ℝ × ℝ)) :
    ∃ l1 m l2,
      c :: l = l1 ++ m :: l2 ∧ (∀ x ∈ l1, x.1 < m.1) ∧ (∀ x ∈ c :: l, x.1 ≤ m.1) ∧
      pickBest (c :: l) = some m := by
  simpa [pickBest, List.foldl_cons, pickStep] using pickBest_go l c

lemma effScale_of_ne (s : ℝ × ℝ) (h : s ≠ (0, 0)) : effScale s = s := if_neg h

lemma effScale_zero : effScale ((0 : ℝ), (0 : ℝ)) = (1, 1) := if_pos rfl

lemma effScale_one : effScale ((1 : ℝ), (1 : ℝ)) = (1, 1) := by
  apply effScale_of_ne
  intro h
  exact one_ne_zero (congrArg Prod.fst h)

/-- No positional override applies: the block's position matches no
exception-table entry and does not exceed the y-coordinate threshold. -/
def noOverride (p : ℝ × ℝ) : Prop :=
  (∀ e ∈ exceptionTable, ¬ excMatch e p) ∧ p.2 ≤ 19000

lemma doorCandidates_ne_nil (b : BlockReference) (ho : ℝ × ℝ) (sx sy r : ℝ) :
    doorCandidates b ho sx sy r ≠ [] := by
  simp [doorCandidates]

lemma doorCandidates_length (b : BlockReference) (ho : ℝ × ℝ) (sx sy r : ℝ) :
    (doorCandidates b ho sx sy r).length = 4 := by
  simp [doorCandidates]

lemma lookup_CPDOOR1 : doorBlockDefs.lookup "CPDOOR1" = some ⟨(-0.5, 0), none⟩ := rfl

/-- C5: every door-block resolution — exception paths, heuristic path, and the
non-catalog fallback path — emits exactly one Arc command followed by exactly one
Line command; the arc's end angle is its start angle plus pi/2 (exactly 90
degrees), and the line runs from the arc's center to the arc's start point
`center + radius * (cos start, sin start)`.  Moreover a "CPDOOR1" block with
`scale = (1, 1)` (in particular the one at position (500, 0), angle 0) resolves
with `door_radius = 900`. -/
theorem c5_door_arc_panel_shape (b : BlockReference) :
    ∃ cx cy r rot,
      createDoorSymbol b =
        [DrawingCommand.arc cx cy r rot (rot + Real.pi / 2) b.layer
           (getColor b.color b.layer),
         DrawingCommand.line cx cy (cx + r * Real.cos rot) (cy + r * Real.sin rot)
           b.layer (getColor b.color b.layer)] ∧
      (b.name = "CPDOOR1" ∧ b.scale = (1, 1) → r = 900) := by
  cases hl : doorBlockDefs.lookup b.name with
  | none =>
    refine ⟨b.position.1, b.position.2, if b.scale.1 = 0 then 900 else b.scale.1,
      b.angle, ?_, ?_⟩
    · simp only [createDoorSymbol, hl, doorArcPanel]
    · rintro ⟨hn, -⟩
      rw [hn, lookup_CPDOOR1] at hl
      cases hl
  | some defn =>
    have hdefn : b.name = "CPDOOR1" → defn = ⟨(-0.5, 0), none⟩ := by
      intro hn
      rw [hn, lookup_CPDOOR1] at hl
      exact (Option.some.injEq _ _ ▸ hl).symm
    have hr900 : b.name = "CPDOOR1" ∧ b.scale = (1, 1) →
        doorRadius defn (effScale b.scale).1 = 900 := by
      rintro ⟨hn, hs⟩
      rw [hdefn hn, hs, effScale_one]
      simp [doorRadius]
    simp only [createDoorSymbol, hl]
    split_ifs with h1 hrad h2 h3 h4 h5 h6 h7
    · exact ⟨_, _, _, _, rfl, fun _ => rfl⟩
    · refine ⟨_, _, _, _, rfl, ?_⟩
      rintro ⟨-, hs⟩
      exact absurd (by rw [hs, effScale_one]; exact Or.inr rfl) hrad
    · exact ⟨_, _, _, _, rfl, hr900⟩
    · exact ⟨_, _, _, _, rfl, hr900⟩
    · exact ⟨_, _, _, _, rfl, hr900⟩
    · exact ⟨_, _, _, _, rfl, hr900⟩
    · exact ⟨_, _, _, _, rfl, hr900⟩
    · exact ⟨_, _, _, _, rfl, hr900⟩
    · obtain ⟨c, l, hcl⟩ := List.exists_cons_of_ne_nil
        (doorCandidates_ne_nil b defn.hingeOffset (effScale b.scale).1
          (effScale b.scale).2 (doorRadius defn (effScale b.scale).1))
      obtain ⟨l1, m, l2, hdec, hlt, hle, hpb⟩ := pickBest_spec c l
      rw [hcl, hpb]
      exact ⟨_, _, _, _, rfl, hr900⟩

/-- The "CPDOOR1" end-to-end scenario block: position (500, 0), angle 0,
scale (1, 1), on the door layer. -/
def scenarioDoorBlock : BlockReference :=
  ⟨"CPDOOR1", (500, 0), 0, (1, 1), "CPDOOR", "7"⟩

theorem c5_door_arc_panel_shape_witness :
    ∃ cx cy r rot,
      createDoorSymbol scenarioDoorBlock =
        [DrawingCommand.arc cx cy r rot (rot + Real.pi / 2) scenarioDoorBlock.layer
           (getColor scenarioDoorBlock.color scenarioDoorBlock.layer),
         DrawingCommand.line cx cy (cx + r * Real.cos rot) (cy + r * Real.sin rot)
           scenarioDoorBlock.layer
           (getColor scenarioDoorBlock.color scenarioDoorBlock.layer)] ∧
      (scenarioDoorBlock.name = "CPDOOR1" ∧ scenarioDoorBlock.scale = (1, 1) → r = 900) :=
  c5_door_arc_panel_shape scenarioDoorBlock

/-- C1: with no positional override, the resolver evaluates exactly 4 candidate
configurations (hinge-offset sign in \x7b+1, -1\x7d crossed with rotation offset
in \x7b+pi/2, -pi/2\x7d, in iteration order), scores each by the squared distance
from its panel endpoint (candidate center plus `door_radius` at the candidate
rotation angle) to the block's anchor position, and emits the arc and panel of
the candidate of maximal score, ties broken in favor of the first-seen candidate;
the selection is deterministic, so resolving the same block twice yields
identical output. -/
theorem c1_heuristic_max_distance (b : BlockReference) (defn : DoorDef)
    (hl : doorBlockDefs.lookup b.name = some defn)
    (hno : noOverride b.position) :
    (doorCandidates b defn.hingeOffset (effScale b.scale).1 (effScale b.scale).2
        (doorRadius defn (effScale b.scale).1)).length = 4 ∧
    ∃ l1 m l2,
      doorCandidates b defn.hingeOffset (effScale b.scale).1 (effScale b.scale).2
          (doorRadius defn (effScale b.scale).1) = l1 ++ m :: l2 ∧
      (∀ x ∈ l1, x.1 < m.1) ∧
      (∀ x ∈ doorCandidates b defn.hingeOffset (effScale b.scale).1 (effScale b.scale).2
          (doorRadius defn (effScale b.scale).1), x.1 ≤ m.1) ∧
      createDoorSymbol b =
        doorArcPanel m.2.1 m.2.2.1 (doorRadius defn (effScale b.scale).1) m.2.2.2
          b.layer (getColor b.color b.layer) ∧
      createDoorSymbol b = createDoorSymbol b := by
  obtain ⟨hexc, hy⟩ := hno
  simp only [exceptionTable, List.forall_mem_cons, excMatch] at hexc
  obtain ⟨h1, h2, h3, h4, h5, h6, -⟩ := hexc
  refine ⟨doorCandidates_length b defn.hingeOffset _ _ _, ?_⟩
  obtain ⟨c, l, hcl⟩ := List.exists_cons_of_ne_nil
    (doorCandidates_ne_nil b defn.hingeOffset (effScale b.scale).1
      (effScale b.scale).2 (doorRadius defn (effScale b.scale).1))
  obtain ⟨l1, m, l2, hdec, hlt, hle, hpb⟩ := pickBest_spec c l
  refine ⟨l1, m, l2, hcl.trans hdec, hlt, ?_, ?_, rfl⟩
  · rw [hcl]
    exact hle
  · simp only [createDoorSymbol, hl]
    rw [if_neg h1, if_neg h2, if_neg h3, if_neg h4, if_neg h5, if_neg h6,
      if_neg (not_lt.2 hy), hcl, hpb]

theorem c1_heuristic_max_distance_witness :
    doorBlockDefs.lookup scenarioDoorBlock.name = some ⟨(-0.5, 0), none⟩ ∧
    noOverride scenarioDoorBlock.position ∧
    ((doorCandidates scenarioDoorBlock (-0.5, (0 : ℝ))
        (effScale scenarioDoorBlock.scale).1 (effScale scenarioDoorBlock.scale).2
        (doorRadius ⟨(-0.5, 0), none⟩ (effScale scenarioDoorBlock.scale).1)).length = 4 ∧
     ∃ l1 m l2,
        doorCandidates scenarioDoorBlock (-0.5, (0 : ℝ))
            (effScale scenarioDoorBlock.scale).1 (effScale scenarioDoorBlock.scale).2
            (doorRadius ⟨(-0.5, 0), none⟩ (effScale scenarioDoorBlock.scale).1) =
          l1 ++ m :: l2 ∧
        (∀ x ∈ l1, x.1 < m.1) ∧
        (∀ x ∈ doorCandidates scenarioDoorBlock (-0.5, (0 : ℝ))
            (effScale scenarioDoorBlock.scale).1 (effScale scenarioDoorBlock.scale).2
            (doorRadius ⟨(-0.5, 0), none⟩ (effScale scenarioDoorBlock.scale).1),
          x.1 ≤ m.1) ∧
        createDoorSymbol scenarioDoorBlock =
          doorArcPanel m.2.1 m.2.2.1
            (doorRadius ⟨(-0.5, 0), none⟩ (effScale scenarioDoorBlock.scale).1) m.2.2.2
            scenarioDoorBlock.layer
            (getColor scenarioDoorBlock.color scenarioDoorBlock.layer) ∧
        createDoorSymbol scenarioDoorBlock = createDoorSymbol scenarioDoorBlock) := by
  have hno : noOverride scenarioDoorBlock.position := by
    constructor
    · intro e he
      simp only [exceptionTable, List.mem_cons, List.not_mem_nil, or_false] at he
      rcases he with rfl | rfl | rfl | rfl | rfl | rfl <;>
        norm_num [excMatch, scenarioDoorBlock, abs_lt, le_abs]
    · norm_num [scenarioDoorBlock]
  exact ⟨rfl, hno, c1_heuristic_max_distance scenarioDoorBlock ⟨(-0.5, 0), none⟩ rfl hno⟩

lemma doorArcPanel_congr {cx cx' cy cy' r r' rot rot' : ℝ} {layer color : String}
    (hcx : cx = cx') (hcy : cy = cy') (hr : r = r') (hrot : rot = rot') :
    doorArcPanel cx cy r rot layer color = doorArcPanel cx' cy' r' rot' layer color := by
  rw [hcx, hcy, hr, hrot]

/-- Two tolerance boxes with x-anchors at least 40 apart cannot both match. -/
lemma not_box_of_far {x y a c c2 : ℝ} (hx : |x - a| < 20) (hfar : 40 ≤ |a - c|) :
    ¬(|x - c| < 20 ∧ |y - c2| < 20) := by
  rintro ⟨hc, -⟩
  rw [abs_lt] at hx hc
  rcases le_abs.1 hfar with h | h <;> linarith [hx.1, hx.2, hc.1, hc.2]

/-- C2: for every catalog door block whose position matches an exception-table
entry within tolerance `abs(dx) < 20 and abs(dy) < 20` — or, matching no entry,
satisfies the `y > 19000` threshold override — the resolver emits exactly the
arc and panel of that entry's forced configuration (its hinge-offset signs and
rotation offset, the first entry additionally forcing a scale-derived radius),
bypassing the 4-candidate heuristic. -/
theorem c2_exception_forces_config (b : BlockReference) (defn : DoorDef)
    (hl : doorBlockDefs.lookup b.name = some defn) :
    (∀ e ∈ exceptionTable, excMatch e b.position →
        createDoorSymbol b = forcedDoor e.cfg defn b) ∧
    ((∀ e ∈ exceptionTable, ¬ excMatch e b.position) → b.position.2 > 19000 →
        createDoorSymbol b = forcedDoor thresholdCfg defn b) := by
  constructor
  · intro e he hm
    simp only [exceptionTable, List.mem_cons, List.not_mem_nil, or_false] at he
    rcases he with rfl | rfl | rfl | rfl | rfl | rfl
    · have hm' : |b.position.1 - 7603.07| < 20 ∧ |b.position.2 - 15067.4| < 20 := by
        simpa [excMatch] using hm
      simp only [createDoorSymbol, hl]
      rw [if_pos hm']
      simp only [forcedDoor]
      exact doorArcPanel_congr
        (by simp [Real.cos_add, Real.sin_add]; try ring)
        (by simp [Real.cos_add, Real.sin_add]; try ring)
        (by simp) (by ring)
    · have hm' : |b.position.1 - 20266.9| < 20 ∧ |b.position.2 - 10414| < 20 := by
        simpa [excMatch] using hm
      simp only [createDoorSymbol, hl]
      rw [if_neg (not_box_of_far hm'.1 (by rw [le_abs]; norm_num)), if_pos hm']
      simp only [forcedDoor]
      exact doorArcPanel_congr (by ring) (by ring) (by simp) (by ring)
    · have hm' : |b.position.1 - 18041.9| < 20 ∧ |b.position.2 - 10424.7| < 20 := by
        simpa [excMatch] using hm
      simp only [createDoorSymbol, hl]
      rw [if_neg (not_box_of_far hm'.1 (by rw [le_abs]; norm_num)),
        if_neg (not_box_of_far hm'.1 (by rw [le_abs]; norm_num)), if_pos hm']
      simp only [forcedDoor]
      exact doorArcPanel_congr (by ring) (by ring) (by simp) (by ring)
    · have hm' : |b.position.1 - 21188.5| < 20 ∧ |b.position.2 - 12020.8| < 20 := by
        simpa [excMatch] using hm
      simp only [createDoorSymbol, hl]
      rw [if_neg (not_box_of_far hm'.1 (by rw [le_abs]; norm_num)),
        if_neg (not_box_of_far hm'.1 (by rw [le_abs]; norm_num)),
        if_neg (not_box_of_far hm'.1 (by rw [le_abs]; norm_num)), if_pos hm']
      simp only [forcedDoor]
      exact doorArcPanel_congr (by ring) (by ring) (by simp) (by ring)
    · have hm' : |b.position.1 - 4195.79| < 20 ∧ |b.position.2 - 23732.8| < 20 := by
        simpa [excMatch] using hm
      simp only [createDoorSymbol, hl]
      rw [if_neg (not_box_of_far hm'.1 (by rw [le_abs]; norm_num)),
        if_neg (not_box_of_far hm'.1 (by rw [le_abs]; norm_num)),
        if_neg (not_box_of_far hm'.1 (by rw [le_abs]; norm_num)),
        if_neg (not_box_of_far hm'.1 (by rw [le_abs]; norm_num)), if_pos hm']
      simp only [forcedDoor]
      exact doorArcPanel_congr (by ring) (by ring) (by simp) (by ring)
    · have hm' : |b.position.1 - 14765.2| < 20 ∧ |b.position.2 - 8208.18| < 20 := by
        simpa [excMatch] using hm
      simp only [createDoorSymbol, hl]
      rw [if_neg (not_box_of_far hm'.1 (by rw [le_abs]; norm_num)),
        if_neg (not_box_of_far hm'.1 (by rw [le_abs]; norm_num)),
        if_neg (not_box_of_far hm'.1 (by rw [le_abs]; norm_num)),
        if_neg (not_box_of_far hm'.1 (by rw [le_abs]; norm_num)),
        if_neg (not_box_of_far hm'.1 (by rw [le_abs]; norm_num)), if_pos hm']
      simp only [forcedDoor]
      exact doorArcPanel_congr (by ring) (by ring) (by simp) (by ring)
  · intro hexc hy
    simp only [exceptionTable, List.forall_mem_cons, excMatch] at hexc
    obtain ⟨h1, h2, h3, h4, h5, h6, -⟩ := hexc
    simp only [createDoorSymbol, hl]
    rw [if_neg h1, if_neg h2, if_neg h3, if_neg h4, if_neg h5, if_neg h6, if_pos hy]
    simp only [forcedDoor, thresholdCfg]
    exact doorArcPanel_congr (by ring) (by ring) (by simp) (by ring)

/-- A "CPDOOR5" block sitting exactly on the second exception-table anchor. -/
def exceptionDoorBlock : BlockReference :=
  ⟨"CPDOOR5", (20266.9, 10414), 0, (1, 1), "CPDOOR", "7"⟩

theorem c2_exception_forces_config_witness :
    doorBlockDefs.lookup exceptionDoorBlock.name = some ⟨(-0.5, 0), none⟩ ∧
    (⟨(20266.9, 10414), ⟨-1, 1, -(Real.pi / 2), false⟩⟩ : ExcEntry) ∈ exceptionTable ∧
    excMatch ⟨(20266.9, 10414), ⟨-1, 1, -(Real.pi / 2), false⟩⟩
      exceptionDoorBlock.position ∧
    createDoorSymbol exceptionDoorBlock =
      forcedDoor ⟨-1, 1, -(Real.pi / 2), false⟩ ⟨(-0.5, 0), none⟩ exceptionDoorBlock := by
  have hmem : (⟨(20266.9, 10414), ⟨-1, 1, -(Real.pi / 2), false⟩⟩ : ExcEntry) ∈
      exceptionTable :=
    List.mem_cons.2 (Or.inr (List.mem_cons_self _ _))
  have hmatch : excMatch ⟨(20266.9, 10414), ⟨-1, 1, -(Real.pi / 2), false⟩⟩
      exceptionDoorBlock.position := by
    norm_num [excMatch, exceptionDoorBlock, abs_lt]
  exact ⟨rfl, hmem, hmatch,
    (c2_exception_forces_config exceptionDoorBlock ⟨(-0.5, 0), none⟩ rfl).1 _ hmem hmatch⟩

/-- Projection used to state the radius claim: the radius of the first emitted
arc command, if any. -/
def headArcRadius (cmds : List DrawingCommand) : Option ℝ :=
  match cmds with
  | .arc _ _ r _ _ _ _ :: _ => some r
  | _ => none

/-- C4: for every catalog door block, with effective scale obtained by
substituting (1, 1) for a (0, 0) scale, the radius of the emitted swing arc is
`fixed_radius * sx` when the catalog entry supplies a fixed radius, and
otherwise `sx`, except that `sx = 0` or `sx = 1` falls back to the default 900.
(The first positional override recomputes the radius from scale; it coincides
with this rule whenever the catalog entry has no fixed radius, so the theorem
excludes only a fixed-radius block placed on that first anchor.) -/
theorem c4_door_radius_rule (b : BlockReference) (defn : DoorDef)
    (hl : doorBlockDefs.lookup b.name = some defn)
    (hnotspecial : defn.radius = none ∨
      ¬(|b.position.1 - 7603.07| < 20 ∧ |b.position.2 - 15067.4| < 20)) :
    headArcRadius (createDoorSymbol b) =
      some (match defn.radius with
            | some fixed => fixed * (effScale b.scale).1
            | none => if (effScale b.scale).1 = 0 ∨ (effScale b.scale).1 = 1 then 900
                      else (effScale b.scale).1) := by
  have hmain : headArcRadius (createDoorSymbol b) =
      some (doorRadius defn (effScale b.scale).1) := by
    simp only [createDoorSymbol, hl]
    split_ifs with h1 hrad h2 h3 h4 h5 h6 h7
    · rcases hnotspecial with hnone | habs
      · simp only [headArcRadius, doorArcPanel, doorRadius, hnone, if_pos hrad]
      · exact absurd h1 habs
    · rcases hnotspecial with hnone | habs
      · simp only [headArcRadius, doorArcPanel, doorRadius, hnone, if_neg hrad]
      · exact absurd h1 habs
    · simp only [headArcRadius, doorArcPanel]
    · simp only [headArcRadius, doorArcPanel]
    · simp only [headArcRadius, doorArcPanel]
    · simp only [headArcRadius, doorArcPanel]
    · simp only [headArcRadius, doorArcPanel]
    · simp only [headArcRadius, doorArcPanel]
    · obtain ⟨c, l, hcl⟩ := List.exists_cons_of_ne_nil
        (doorCandidates_ne_nil b defn.hingeOffset (effScale b.scale).1
          (effScale b.scale).2 (doorRadius defn (effScale b.scale).1))
      obtain ⟨l1, m, l2, hdec, hlt, hle, hpb⟩ := pickBest_spec c l
      rw [hcl, hpb]
      simp only [headArcRadius, doorArcPanel]
  rw [hmain]
  rcases hd : defn.radius with _ | fixed <;> simp [doorRadius, hd]

theorem c4_door_radius_rule_witness :
    doorBlockDefs.lookup scenarioDoorBlock.name = some ⟨(-0.5, 0), none⟩ ∧
    ((⟨(-0.5, 0), none⟩ : DoorDef).radius = none ∨
      ¬(|scenarioDoorBlock.position.1 - 7603.07| < 20 ∧
        |scenarioDoorBlock.position.2 - 15067.4| < 20)) ∧
    headArcRadius (createDoorSymbol scenarioDoorBlock) =
      some (match (⟨(-0.5, 0), none⟩ : DoorDef).radius with
            | some fixed => fixed * (effScale scenarioDoorBlock.scale).1
            | none => if (effScale scenarioDoorBlock.scale).1 = 0 ∨
                        (effScale scenarioDoorBlock.scale).1 = 1 then 900
                      else (effScale scenarioDoorBlock.scale).1) :=
  ⟨rfl, Or.inl rfl,
    c4_door_radius_rule scenarioDoorBlock ⟨(-0.5, 0), none⟩ rfl (Or.inl rfl)⟩

lemma inverseTransform_rot (b : BlockReference) (px py : ℝ) :
    inverseTransform b
      (b.position.1 + px * Real.cos b.angle - py * Real.sin b.angle,
       b.position.2 + px * Real.sin b.angle + py * Real.cos b.angle) = (px, py) := by
  have h := Real.sin_sq_add_cos_sq b.angle
  simp only [inverseTransform]
  rw [Prod.mk.injEq]
  constructor
  · linear_combination px * h
  · linear_combination py * h

/-- C6: for every window block the resolved width is `abs(scale.x)` when
`scale.x` is nonzero and the default 1200 when `scale.x = 0` (so `scale = (0, 1)`
gives width 1200, not 0), the thickness is the fixed 200; the 4 corners of the
emitted rectangle outline (the start points of its 4 line commands), mapped by
the inverse placement transform (translate by `-position`, rotate by `-angle`),
are exactly the axis-aligned corner set `(±w/2, ±200/2)`. -/
theorem c6_window_corners_canonical (b : BlockReference) :
    ((createWindowSymbol b).filterMap lineStart).map (inverseTransform b) =
      [(-((if b.scale.1 = 0 then (1200 : ℝ) else |b.scale.1|) / 2), -((200 : ℝ) / 2)),
       ((if b.scale.1 = 0 then (1200 : ℝ) else |b.scale.1|) / 2, -((200 : ℝ) / 2)),
       ((if b.scale.1 = 0 then (1200 : ℝ) else |b.scale.1|) / 2, (200 : ℝ) / 2),
       (-((if b.scale.1 = 0 then (1200 : ℝ) else |b.scale.1|) / 2), (200 : ℝ) / 2)] := by
  simp only [createWindowSymbol, List.filterMap_cons, lineStart, List.map_cons,
    List.map_nil, List.filterMap_nil]
  rw [inverseTransform_rot, inverseTransform_rot, inverseTransform_rot,
    inverseTransform_rot]

/-- C10: every command emitted for a window block carries the fixed color
"green" (regardless of the block's own color attribute and of the
layer-to-color mapping), and the Symbol marker precedes the 4 outline lines. -/
theorem c10_window_green_marker_first (b : BlockReference) :
    (createWindowSymbol b).map commandColor =
      ["green", "green", "green", "green", "green"] ∧
    ∃ rest, createWindowSymbol b =
      DrawingCommand.symbol b.position.1 b.position.2 "WINDOW" b.angle b.scale
        b.layer "green" :: rest ∧
      rest.length = 4 ∧ ∀ c ∈ rest, isLineCommand c := by
  refine ⟨by simp [createWindowSymbol, commandColor], ?_⟩
  refine ⟨_, rfl, rfl, ?_⟩
  intro c hc
  simp only [List.mem_cons, List.not_mem_nil, or_false] at hc
  rcases hc with rfl | rfl | rfl | rfl <;> trivial

/-- C7: block-name lookup is by exact name; a block whose name has no dispatch
entry and is not one of the two named stair blocks always resolves, emitting
exactly one Symbol command whose label is the block name, with position, angle
and scale passed through unchanged. -/
theorem c7_unknown_block_single_symbol (b : BlockReference)
    (h1 : symbols.lookup b.name = none)
    (h2 : b.name ≠ "CPDOOR2") (h3 : b.name ≠ "계단-6") :
    convertBlockReference b =
      [DrawingCommand.symbol b.position.1 b.position.2 b.name b.angle b.scale
        b.layer (getColor b.color b.layer)] := by
  simp only [convertBlockReference, h1, if_neg h2, if_neg h3, createDefaultSymbol]

/-- The "UNKNOWN_X" end-to-end scenario block. -/
def unknownBlock : BlockReference :=
  ⟨"UNKNOWN_X", (10, 20), 0.5, (2, 3), "L1", "7"⟩

theorem c7_unknown_block_single_symbol_witness :
    symbols.lookup unknownBlock.name = none ∧
    unknownBlock.name ≠ "CPDOOR2" ∧ unknownBlock.name ≠ "계단-6" ∧
    convertBlockReference unknownBlock =
      [DrawingCommand.symbol unknownBlock.position.1 unknownBlock.position.2
        unknownBlock.name unknownBlock.angle unknownBlock.scale unknownBlock.layer
        (getColor unknownBlock.color unknownBlock.layer)] :=
  ⟨rfl, by decide, by decide,
    c7_unknown_block_single_symbol unknownBlock rfl (by decide) (by decide)⟩

/-- The candidate list reads only the block's position and angle, not its scale
field (the scale enters through the separately passed effective components). -/
lemma doorCandidates_scale_irrel (name : String) (pos : ℝ × ℝ) (ang : ℝ)
    (s s' : ℝ × ℝ) (lay col : String) (ho : ℝ × ℝ) (sx sy r : ℝ) :
    doorCandidates ⟨name, pos, ang, s, lay, col⟩ ho sx sy r =
      doorCandidates ⟨name, pos, ang, s', lay, col⟩ ho sx sy r := by
  simp only [doorCandidates]

/-- For block names with a `door_block_defs` entry, `createDoorSymbol` depends on
the scale only through the effective scale. -/
lemma createDoorSymbol_congr_effScale (name : String) (pos : ℝ × ℝ) (ang : ℝ)
    (s s' : ℝ × ℝ) (lay col : String) (defn : DoorDef)
    (hl : doorBlockDefs.lookup name = some defn)
    (hs : effScale s = effScale s') :
    createDoorSymbol ⟨name, pos, ang, s, lay, col⟩ =
      createDoorSymbol ⟨name, pos, ang, s', lay, col⟩ := by
  simp only [createDoorSymbol, hl]
  rw [hs, doorCandidates_scale_irrel name pos ang s s' lay col]

/-- Function `createStairSymbol` depends on the scale only through the effective scale. -/
lemma createStairSymbol_congr_effScale (name : String) (pos : ℝ × ℝ) (ang : ℝ)
    (s s' : ℝ × ℝ) (lay col : String) (hs : effScale s = effScale s') :
    createStairSymbol ⟨name, pos, ang, s, lay, col⟩ =
      createStairSymbol ⟨name, pos, ang, s', lay, col⟩ := by
  simp only [createStairSymbol]
  rw [hs]

lemma effScale_zero_eq_one : effScale ((0 : ℝ), (0 : ℝ)) = effScale (1, 1) := by
  rw [effScale_zero, effScale_one]

/-- C3 counterexample: an unknown block passes its scale through unchanged, so
resolving with `scale = (0, 0)` differs from resolving with `scale = (1, 1)`. -/
theorem c3_scale_zero_counterexample :
    convertBlockReference ⟨"UNKNOWN_X", (0, 0), 0, (0, 0), "L1", "7"⟩ ≠
      convertBlockReference ⟨"UNKNOWN_X", (0, 0), 0, (1, 1), "L1", "7"⟩ := by
  intro h
  have h' := show DrawingCommand.symbol 0 0 "UNKNOWN_X" 0 ((0 : ℝ), (0 : ℝ)) "L1"
      (getColor "7" "L1") :: ([] : List DrawingCommand) =
      DrawingCommand.symbol 0 0 "UNKNOWN_X" 0 ((1 : ℝ), (1 : ℝ)) "L1"
      (getColor "7" "L1") :: [] from h
  injection h' with hhead htail
  injection hhead with hx hy hname hangle hscale hlayer hcolor
  exact absurd (congrArg Prod.fst hscale) zero_ne_one

/-- C3 amended: resolution with `scale = (0, 0)` coincides with `scale = (1, 1)`
for the catalog door blocks and the stair blocks (which normalize the scale via
`effScale`); window blocks, fallback doors and unknown blocks consume the raw
scale instead. -/
theorem c3_scale_zero_amended (name : String) (pos : ℝ × ℝ) (ang : ℝ)
    (lay col : String)
    (h : name ∈ ["CPDOOR1", "CPDOOR5", "CPDOOR2", "계단-6"]) :
    convertBlockReference ⟨name, pos, ang, (0, 0), lay, col⟩ =
      convertBlockReference ⟨name, pos, ang, (1, 1), lay, col⟩ := by
  simp only [List.mem_cons, List.not_mem_nil, or_false] at h
  rcases h with rfl | rfl | rfl | rfl
  · calc convertBlockReference ⟨"CPDOOR1", pos, ang, (0, 0), lay, col⟩
        = createDoorSymbol ⟨"CPDOOR1", pos, ang, (0, 0), lay, col⟩ := rfl
      _ = createDoorSymbol ⟨"CPDOOR1", pos, ang, (1, 1), lay, col⟩ :=
          createDoorSymbol_congr_effScale _ _ _ _ _ _ _ _ rfl effScale_zero_eq_one
      _ = convertBlockReference ⟨"CPDOOR1", pos, ang, (1, 1), lay, col⟩ := rfl
  · calc convertBlockReference ⟨"CPDOOR5", pos, ang, (0, 0), lay, col⟩
        = createDoorSymbol ⟨"CPDOOR5", pos, ang, (0, 0), lay, col⟩ := rfl
      _ = createDoorSymbol ⟨"CPDOOR5", pos, ang, (1, 1), lay, col⟩ :=
          createDoorSymbol_congr_effScale _ _ _ _ _ _ _ _ rfl effScale_zero_eq_one
      _ = convertBlockReference ⟨"CPDOOR5", pos, ang, (1, 1), lay, col⟩ := rfl
  · calc convertBlockReference ⟨"CPDOOR2", pos, ang, (0, 0), lay, col⟩
        = createStairSymbol ⟨"CPDOOR2", pos, ang, (0, 0), lay, col⟩ := rfl
      _ = createStairSymbol ⟨"CPDOOR2", pos, ang, (1, 1), lay, col⟩ :=
          createStairSymbol_congr_effScale _ _ _ _ _ _ _ effScale_zero_eq_one
      _ = convertBlockReference ⟨"CPDOOR2", pos, ang, (1, 1), lay, col⟩ := rfl
  · calc convertBlockReference ⟨"계단-6", pos, ang, (0, 0), lay, col⟩
        = createStairSymbol ⟨"계단-6", pos, ang, (0, 0), lay, col⟩ := rfl
      _ = createStairSymbol ⟨"계단-6", pos, ang, (1, 1), lay, col⟩ :=
          createStairSymbol_congr_effScale _ _ _ _ _ _ _ effScale_zero_eq_one
      _ = convertBlockReference ⟨"계단-6", pos, ang, (1, 1), lay, col⟩ := rfl

theorem c3_scale_zero_amended_witness :
    ("CPDOOR2" : String) ∈ ["CPDOOR1", "CPDOOR5", "CPDOOR2", "계단-6"] ∧
    convertBlockReference ⟨"CPDOOR2", ((100 : ℝ), 200), 0, (0, 0), "STAIR", "7"⟩ =
      convertBlockReference ⟨"CPDOOR2", ((100 : ℝ), 200), 0, (1, 1), "STAIR", "7"⟩ :=
  ⟨by decide, c3_scale_zero_amended "CPDOOR2" (100, 200) 0 "STAIR" "7" (by decide)⟩

/-- The y-coordinate of the first emitted line's second endpoint, used to exhibit
the stair template's dependence on `scale.y`. -/
def headLineEndY (cmds : List DrawingCommand) : Option ℝ :=
  match cmds with
  | .line _ _ _ y2 _ _ :: _ => some y2
  | _ => none

/-- C9 counterexample: two stair blocks that differ only in `scale.y` emit
different command sequences — the first line's far endpoint sits at
`y + 0.5*scale_y`, so `scale.y = 1` gives 0.5 while `scale.y = 3` gives 1.5. -/
theorem c9_scale_y_counterexample :
    headLineEndY (createStairSymbol ⟨"CPDOOR2", (0, 0), 0, (2, 1), "STAIR", "7"⟩) =
      some (1 / 2) ∧
    headLineEndY (createStairSymbol ⟨"CPDOOR2", (0, 0), 0, (2, 3), "STAIR", "7"⟩) =
      some (3 / 2) ∧
    createStairSymbol ⟨"CPDOOR2", (0, 0), 0, (2, 1), "STAIR", "7"⟩ ≠
      createStairSymbol ⟨"CPDOOR2", (0, 0), 0, (2, 3), "STAIR", "7"⟩ := by
  have hA : headLineEndY (createStairSymbol ⟨"CPDOOR2", (0, 0), 0, (2, 1), "STAIR", "7"⟩) =
      some (1 / 2) := by
    norm_num [createStairSymbol, headLineEndY, effScale, Prod.ext_iff]
  have hB : headLineEndY (createStairSymbol ⟨"CPDOOR2", (0, 0), 0, (2, 3), "STAIR", "7"⟩) =
      some (3 / 2) := by
    norm_num [createStairSymbol, headLineEndY, effScale, Prod.ext_iff]
  refine ⟨hA, hB, ?_⟩
  intro h
  rw [h] at hA
  have := hA.symm.trans hB
  injection this with hval
  exact absurd hval (by norm_num)

/-- C9 amended: the stair template's two 90-degree arcs are derived from
position, angle and the effective `scale.x` only, so stair blocks differing only
in `scale.y` (both scales nonzero) emit identical arcs; the two line segments,
however, do depend on `scale.y`: each line's second endpoint adds `0.5*scale_y`
to the y-coordinate of its first endpoint. -/
theorem c9_stair_scale_y_amended (n : String) (pos : ℝ × ℝ) (ang sx sy sy' : ℝ)
    (lay col : String)
    (h : (sx, sy) ≠ ((0 : ℝ), (0 : ℝ))) (h' : (sx, sy') ≠ ((0 : ℝ), (0 : ℝ))) :
    (createStairSymbol ⟨n, pos, ang, (sx, sy), lay, col⟩).drop 2 =
      (createStairSymbol ⟨n, pos, ang, (sx, sy'), lay, col⟩).drop 2 ∧
    ∃ x1 y1 x2 y2 c1x c1y c2x c2y rad s1 s2,
      createStairSymbol ⟨n, pos, ang, (sx, sy), lay, col⟩ =
        [DrawingCommand.line x1 y1 x1 (y1 + 0.5 * sy) lay (getColor col lay),
         DrawingCommand.line x2 y2 x2 (y2 + 0.5 * sy) lay (getColor col lay),
         DrawingCommand.arc c1x c1y rad s1 (s1 + Real.pi / 2) lay (getColor col lay),
         DrawingCommand.arc c2x c2y rad s2 (s2 + Real.pi / 2) lay (getColor col lay)] := by
  have e : effScale (sx, sy) = (sx, sy) := effScale_of_ne _ h
  have e' : effScale (sx, sy') = (sx, sy') := effScale_of_ne _ h'
  constructor
  · simp only [createStairSymbol, e, e', List.drop]
  · refine ⟨pos.1 + 0.5 * sx * Real.cos ang, pos.2 + 0.5 * sx * Real.sin ang,
      pos.1 - 0.5 * sx * Real.cos ang, pos.2 - 0.5 * sx * Real.sin ang,
      pos.1 + 0.5 * sx * Real.cos ang, pos.2 + 0.5 * sx * Real.sin ang,
      pos.1 - 0.5 * sx * Real.cos ang, pos.2 + 0.5 * sx * Real.sin ang,
      0.5 * sx, ang + Real.pi / 2, ang, ?_⟩
    simp only [createStairSymbol, e]
    rw [show ang + Real.pi = ang + Real.pi / 2 + Real.pi / 2 by ring]

theorem c9_stair_scale_y_amended_witness :
    ((2 : ℝ), (1 : ℝ)) ≠ ((0 : ℝ), (0 : ℝ)) ∧ ((2 : ℝ), (3 : ℝ)) ≠ ((0 : ℝ), (0 : ℝ)) ∧
    ((createStairSymbol ⟨"CPDOOR2", (0, 0), 0, (2, 1), "STAIR", "7"⟩).drop 2 =
      (createStairSymbol ⟨"CPDOOR2", (0, 0), 0, (2, 3), "STAIR", "7"⟩).drop 2 ∧
     ∃ x1 y1 x2 y2 c1x c1y c2x c2y rad s1 s2,
      createStairSymbol ⟨"CPDOOR2", (0, 0), 0, (2, 1), "STAIR", "7"⟩ =
        [DrawingCommand.line x1 y1 x1 (y1 + 0.5 * 1) "STAIR" (getColor "7" "STAIR"),
         DrawingCommand.line x2 y2 x2 (y2 + 0.5 * 1) "STAIR" (getColor "7" "STAIR"),
         DrawingCommand.arc c1x c1y rad s1 (s1 + Real.pi / 2) "STAIR"
           (getColor "7" "STAIR"),
         DrawingCommand.arc c2x c2y rad s2 (s2 + Real.pi / 2) "STAIR"
           (getColor "7" "STAIR")]) := by
  have h1 : ((2 : ℝ), (1 : ℝ)) ≠ ((0 : ℝ), (0 : ℝ)) := by
    simp [Prod.ext_iff]
  have h2 : ((2 : ℝ), (3 : ℝ)) ≠ ((0 : ℝ), (0 : ℝ)) := by
    simp [Prod.ext_iff]
  exact ⟨h1, h2, c9_stair_scale_y_amended "CPDOOR2" (0, 0) 0 2 1 3 "STAIR" "7" h1 h2⟩

/-- A one-page document whose only element sits on a layer that is never
declared in the page's layer list and is absent from the allow-list. -/
def undeclaredLayerDoc : SPSDocument :=
  ⟨"2.0", [⟨"T", "100", "", [], [.line (0, 0) (1, 1) "FOO" "7"]⟩]⟩

/-- C8 counterexample: an element whose layer name is absent from the
caller-supplied allow-list is still emitted when that layer is not declared in
the page's layer table — `layer_visibility.get(layer, True)` defaults missing
layers to visible, so the claim's "zero commands" fails. -/
theorem c8_undeclared_layer_counterexample :
    ("FOO" : String) ∉ (["CPWALL"] : List String) ∧
    convertToDrawingCommands undeclaredLayerDoc (some ["CPWALL"]) ≠ [] := by
  refine ⟨by decide, ?_⟩
  simp [convertToDrawingCommands, undeclaredLayerDoc, pageCommands, getAllowList,
    layerVisibility, elementLayer, elementCommands]

/-- C8 amended: per-page conversion concatenates the per-element command lists
in input element order, where an element contributes its commands when its layer
is visible and nothing otherwise; an element whose layer IS declared in the
page's layer table (last declaration winning) and is switched off or absent from
the allow-list contributes zero commands.  Elements on undeclared layers are
always passed through (the visibility dict defaults missing names to visible). -/
theorem c8_layer_filtering_amended (page : Page) (wl : List String) :
    pageCommands page wl =
      page.drawingElements.flatMap (fun e =>
        if layerVisibility page wl (elementLayer e) then elementCommands e else []) ∧
    ∀ e l, page.layers.reverse.find? (fun ld => ld.name == elementLayer e) = some l →
      (l.off = true ∨ wl.contains (elementLayer e) = false) →
      (if layerVisibility page wl (elementLayer e) then elementCommands e else []) =
        [] := by
  refine ⟨rfl, ?_⟩
  intro e l hfind hcase
  have hv : layerVisibility page wl (elementLayer e) = false := by
    simp only [layerVisibility, hfind]
    rcases hcase with h | h
    · rw [h, Bool.not_true, Bool.false_and]
    · rw [h, Bool.and_false]
  simp [hv]

/-- A page declaring layer "FOO" (not switched off) whose only element sits on
"FOO". -/
def declaredLayerPage : Page :=
  ⟨"T", "100", "", [⟨"FOO", "7", false⟩], [.line (0, 0) (1, 1) "FOO" "7"]⟩

theorem c8_layer_filtering_amended_witness :
    declaredLayerPage.layers.reverse.find?
        (fun ld => ld.name == elementLayer (.line (0, 0) (1, 1) "FOO" "7")) =
      some ⟨"FOO", "7", false⟩ ∧
    ((⟨"FOO", "7", false⟩ : Layer).off = true ∨
      (["CPWALL"] : List String).contains
        (elementLayer (.line (0, 0) (1, 1) "FOO" "7")) = false) ∧
    (if layerVisibility declaredLayerPage ["CPWALL"]
        (elementLayer (.line (0, 0) (1, 1) "FOO" "7")) then
      elementCommands (.line (0, 0) (1, 1) "FOO" "7")
    else []) = [] :=
  ⟨rfl, Or.inr rfl,
    (c8_layer_filtering_amended declaredLayerPage ["CPWALL"]).2
      (.line (0, 0) (1, 1) "FOO" "7") ⟨"FOO", "7", false⟩ rfl (Or.inr rfl)⟩

end

end XmlTo2D
